import Mathlib

/-!
Shallow embedding of the site-optimization script (src/index.js).

The script wires independent DOM behaviors: a lazy image loader driven by
intersection detection, a debounced scroll handler toggling a scroll-to-top
control, a scroll-position navigation highlighter, conditional third-party
widget bootstrap (fonts, typed text, masonry grid with filter clicks), a
mobile header toggle, and a window-load finalizer.  Each behavior is
translated here as a pure function over explicit element states, and the
script's contracts are proved about these functions.
-/

/-- A DOM element's class list, modelled as the ordered token list kept by
DOMTokenList. -/
abbrev ClassList := List String

/-- classList.add: appends the token unless it is already present. -/
def addClass (cs : ClassList) (c : String) : ClassList :=
  if c ∈ cs then cs else cs ++ [c]

/-- classList.remove: drops every occurrence of the token. -/
def removeClass (cs : ClassList) (c : String) : ClassList :=
  cs.filter (fun x => x ≠ c)

/-- classList.toggle: removes the token when present, adds it otherwise. -/
def toggleClass (cs : ClassList) (c : String) : ClassList :=
  if c ∈ cs then removeClass cs c else addClass cs c

/-! ## Lazy image loader (src/index.js lines 11-44) -/

/-- An `img` element as the lazy loader sees it: live `src`/`srcset`
attributes, the deferred `data-src`/`data-srcset` markers, and whether the
intersection observer is currently observing it. -/
structure Img where
  src : Option String
  srcset : Option String
  dataSrc : Option String
  dataSrcset : Option String
  observed : Bool
deriving Repr, DecidableEq

/-- Body of the intersection handler and of the fallback loop: copy
`data-src` into `src`, copy `data-srcset` into `srcset` when it is a truthy
(non-empty) string, then remove both data markers. -/
def resolveImg (img : Img) : Img :=
  { img with
    src := img.dataSrc
    srcset :=
      match img.dataSrcset with
      | some s => if s = "" then img.srcset else some s
      | none => img.srcset
    dataSrc := none
    dataSrcset := none }

/-- One delivery of an intersection-observer entry for `img`.  The callback
only ever runs for elements still observed; when the entry is intersecting
the image is resolved and then unobserved (`observer.unobserve(img)`). -/
def observerCallbackStep (img : Img) (isIntersecting : Bool) : Img :=
  if img.observed && isIntersecting then
    { resolveImg img with observed := false }
  else img

/-- `lazyLoadImages`: the selector `img[data-src]` picks the images whose
deferred marker is present.  With IntersectionObserver available each is
observed; otherwise each is resolved immediately. -/
def lazyLoadImages (observerAvailable : Bool) (imgs : List Img) : List Img :=
  if observerAvailable then
    imgs.map (fun i => if i.dataSrc.isSome then { i with observed := true } else i)
  else
    imgs.map (fun i => if i.dataSrc.isSome then resolveImg i else i)

/-! ## Debounced scroll handler (src/index.js lines 119-140) -/

/-- Effect of one run of the debounced scroll handler body: when the
scroll-to-top control exists, its class list gains `active` exactly when the
recorded scroll offset exceeds 100, and loses it otherwise. -/
def handleScroll (scrollTop : Int) (scrollTopButton : Option ClassList) :
    Option ClassList :=
  match scrollTopButton with
  | none => none
  | some cs =>
      some (if scrollTop > 100 then addClass cs "active" else removeClass cs "active")

theorem mem_addClass_self (cs : ClassList) (c : String) : c ∈ addClass cs c := by
  unfold addClass
  by_cases h : c ∈ cs <;> simp [h]

theorem not_mem_removeClass_self (cs : ClassList) (c : String) :
    c ∉ removeClass cs c := by
  unfold removeClass
  simp

/-- C3: after a run of the debounced scroll handler with the control present,
the control carries `active` iff the recorded offset exceeds 100 px; in
particular offset 50 leaves it inactive and offset 150 makes it active. -/
theorem c3_scroll_top_active_iff :
    (∀ (y : Int) (cs : ClassList),
        "active" ∈ (handleScroll y (some cs)).getD [] ↔ y > 100) ∧
    (∀ cs : ClassList, "active" ∉ (handleScroll 50 (some cs)).getD []) ∧
    (∀ cs : ClassList, "active" ∈ (handleScroll 150 (some cs)).getD []) := by
  have key : ∀ (y : Int) (cs : ClassList),
      "active" ∈ (handleScroll y (some cs)).getD [] ↔ y > 100 := by
    intro y cs
    unfold handleScroll
    by_cases h : y > 100
    · simp [h, mem_addClass_self]
    · simp [h, not_mem_removeClass_self]
  refine ⟨key, ?_, ?_⟩
  · intro cs
    rw [key]
    decide
  · intro cs
    rw [key]
    decide

/-! ## C1: lazy image resolution -/

/-- C1: for an image carrying the deferred-source marker: under intersection
detection, the first intersecting entry copies `data-src` (and a non-empty
`data-srcset`) into the live attributes, removes both markers and unobserves
the element; a later delivery changes nothing (removed exactly once); without
intersection detection, every selected image is resolved immediately by
`lazyLoadImages`. -/
theorem c1_lazy_image_resolution (img : Img) (u : String)
    (h : img.dataSrc = some u) :
    let i0 : Img := { img with observed := true }
    let i1 : Img := observerCallbackStep i0 true
    i1.src = some u ∧
    i1.dataSrc = none ∧
    i1.dataSrcset = none ∧
    i1.observed = false ∧
    (∀ s : String, img.dataSrcset = some s → s ≠ "" → i1.srcset = some s) ∧
    (∀ b : Bool, observerCallbackStep i1 b = i1) ∧
    (∀ imgs : List Img, lazyLoadImages false imgs =
        imgs.map (fun i => if i.dataSrc.isSome then resolveImg i else i)) ∧
    (resolveImg img).src = some u ∧ (resolveImg img).dataSrc = none := by
  refine ⟨?_, rfl, rfl, rfl, ?_, ?_, ?_, ?_, rfl⟩
  · simp [observerCallbackStep, resolveImg, h]
  · intro s hs hne
    simp [observerCallbackStep, resolveImg, hs, hne]
  · intro b
    simp [observerCallbackStep]
  · intro imgs
    simp [lazyLoadImages]
  · simp [resolveImg, h]

/-- Witness for C1 at a concrete deferred image. -/
theorem c1_lazy_image_resolution_witness :
    let img : Img :=
      { src := none, srcset := none, dataSrc := some "a.png",
        dataSrcset := some "a-2x.png 2x", observed := false }
    (observerCallbackStep { img with observed := true } true).src = some "a.png" :=
  (c1_lazy_image_resolution
    { src := none, srcset := none, dataSrc := some "a.png",
      dataSrcset := some "a-2x.png 2x", observed := false }
    "a.png" rfl).1

/-! ## Navigation highlighter (src/index.js lines 320-343) -/

/-- A `section` element: its id and vertical geometry. -/
structure SectionElem where
  id : String
  offsetTop : Int
  offsetHeight : Int
deriving Repr, DecidableEq

/-- A `#navmenu a` anchor: its `href` and whether it carries `active`. -/
structure NavLink where
  href : String
  active : Bool
deriving Repr, DecidableEq

/-- The containment test of `activateNavmenuLink`: with `sectionTop =
offsetTop - 100` and `sectionBottom = sectionTop + offsetHeight`, the section
contains the offset when `sectionTop ≤ scrollY < sectionBottom`. -/
def containsY (scrollY : Int) (s : SectionElem) : Bool :=
  decide (s.offsetTop - 100 ≤ scrollY) &&
    decide (scrollY < s.offsetTop - 100 + s.offsetHeight)

/-- The `sections.forEach` fold of `activateNavmenuLink`: each containing
section unconditionally overwrites the candidate, so the last containing
section wins. -/
def currentActiveId (scrollY : Int) (sections : List SectionElem) :
    Option String :=
  sections.foldl
    (fun acc s => if containsY scrollY s then some s.id else acc) none

/-- The `navmenuLinks.forEach` body: remove `active`, then add it back when
the href's tail (after `#`) equals the candidate id. -/
def setLinkActive (current : Option String) (link : NavLink) : NavLink :=
  { link with
    active :=
      match current with
      | none => false
      | some c => link.href.drop 1 == c }

/-- `activateNavmenuLink`: recompute the candidate section, then rewrite the
active mark of every navigation anchor. -/
def activateNavmenuLink (scrollY : Int) (sections : List SectionElem)
    (links : List NavLink) : List NavLink :=
  links.map (setLinkActive (currentActiveId scrollY sections))

theorem currentActiveId_foldl (scrollY : Int) (sections : List SectionElem)
    (acc : Option String) :
    sections.foldl
        (fun acc s => if containsY scrollY s then some s.id else acc) acc =
      match (sections.filter (containsY scrollY)).getLast? with
      | some w => some w.id
      | none => acc := by
  induction sections generalizing acc with
  | nil => simp
  | cons s rest ih =>
    by_cases hs : containsY scrollY s
    · simp only [List.foldl_cons, List.filter_cons, hs, if_pos, ih]
      cases hrest : (rest.filter (containsY scrollY)).getLast? with
      | some w => simp [List.getLast?_cons, hrest]
      | none =>
        have : rest.filter (containsY scrollY) = [] := by
          cases hf : rest.filter (containsY scrollY) with
          | nil => rfl
          | cons a l => rw [hf] at hrest; simp [List.getLast?] at hrest
        simp [hs, this]
    · simp only [List.foldl_cons, List.filter_cons]
      rw [if_neg hs, if_neg hs, ih]

/-- The fold picks the id of the last containing section in DOM order. -/
theorem currentActiveId_eq_getLast (scrollY : Int)
    (sections : List SectionElem) :
    currentActiveId scrollY sections =
      ((sections.filter (containsY scrollY)).getLast?).map SectionElem.id := by
  unfold currentActiveId
  rw [currentActiveId_foldl]
  cases h : (sections.filter (containsY scrollY)).getLast? <;> simp [h]

/-! ## C2: highlighter marks the last containing section's anchor -/

/-- C2 counterexample: with no sections at all, a run of the highlighter marks
zero anchors active, so "one run marks exactly one navigation anchor active"
fails for this list of sections and scroll offset. -/
theorem c2_counterexample :
    (activateNavmenuLink 0 []
        [{ href := "#home", active := true }]).countP (fun l => l.active) ≠ 1 := by
  decide

/-- C2 (amended): whenever some section's span contains the offset (with the
100 px lookahead) and exactly one anchor targets the last such section, one
run of the highlighter marks exactly that anchor active and clears all
others; each anchor's mark becomes precisely "my target equals the winning
section's id". -/
theorem c2_nav_highlighter_last_match (scrollY : Int)
    (sections : List SectionElem) (links : List NavLink) (w : SectionElem)
    (h1 : (sections.filter (containsY scrollY)).getLast? = some w)
    (h2 : links.countP (fun l => l.href.drop 1 == w.id) = 1) :
    activateNavmenuLink scrollY sections links =
      links.map (fun l => { l with active := l.href.drop 1 == w.id }) ∧
    (activateNavmenuLink scrollY sections links).countP (fun l => l.active) = 1 := by
  have hcur : currentActiveId scrollY sections = some w.id := by
    rw [currentActiveId_eq_getLast, h1]
    rfl
  constructor
  · unfold activateNavmenuLink
    rw [hcur]
    rfl
  · unfold activateNavmenuLink
    rw [hcur, List.countP_map]
    exact h2

/-- Witness for C2 on the spec's example: sections spanning `[0,300)`,
`[300,800)`, `[800,1200)` and scrollY 350 activate exactly the second
anchor. -/
theorem c2_nav_highlighter_last_match_witness :
    (activateNavmenuLink 350
        [{ id := "s1", offsetTop := 0, offsetHeight := 300 },
         { id := "s2", offsetTop := 300, offsetHeight := 500 },
         { id := "s3", offsetTop := 800, offsetHeight := 400 }]
        [{ href := "#s1", active := false },
         { href := "#s2", active := false },
         { href := "#s3", active := false }]).countP (fun l => l.active) = 1 :=
  (c2_nav_highlighter_last_match 350
    [{ id := "s1", offsetTop := 0, offsetHeight := 300 },
     { id := "s2", offsetTop := 300, offsetHeight := 500 },
     { id := "s3", offsetTop := 800, offsetHeight := 400 }]
    [{ href := "#s1", active := false },
     { href := "#s2", active := false },
     { href := "#s3", active := false }]
    { id := "s2", offsetTop := 300, offsetHeight := 500 }
    (by decide) (by decide)).2

/-! ## C6: at most one active navigation link -/

/-- C6 counterexample: two anchors with the same target href both receive the
active class in one run, so "no reachable state has two navigation anchors
carrying the active class" fails. -/
theorem c6_counterexample :
    ¬ ((activateNavmenuLink 0
          [{ id := "home", offsetTop := 0, offsetHeight := 300 }]
          [{ href := "#home", active := false },
           { href := "#home", active := false }]).countP
        (fun l => l.active) ≤ 1) := by
  decide

/-- C6 (amended): provided the navigation anchors have pairwise-distinct
targets (their hrefs after `#`), every run of the highlighter leaves at most
one anchor marked active, whatever the sections and scroll offset are. -/
theorem c6_at_most_one_active (links : List NavLink)
    (h : (links.map (fun l => l.href.drop 1)).Nodup) :
    ∀ (scrollY : Int) (sections : List SectionElem),
      (activateNavmenuLink scrollY sections links).countP
          (fun l => l.active) ≤ 1 := by
  intro scrollY sections
  unfold activateNavmenuLink
  rw [List.countP_map]
  cases hcur : currentActiveId scrollY sections with
  | none =>
    have hz : ((fun l => l.active) ∘ setLinkActive none) =
        fun (_ : NavLink) => false := by
      funext l
      rfl
    rw [hz]
    simp
  | some c =>
    have hcomp : ((fun l => l.active) ∘ setLinkActive (some c)) =
        fun (l : NavLink) => l.href.drop 1 == c := by
      funext l
      rfl
    have hc : (links.map (fun l => l.href.drop 1)).count c =
        links.countP (fun l => l.href.drop 1 == c) := by
      rw [List.count_eq_countP, List.countP_map]
      rfl
    rw [hcomp, ← hc]
    exact List.nodup_iff_count_le_one.mp h c

/-- Witness for C6 at anchors with distinct targets. -/
theorem c6_at_most_one_active_witness :
    (activateNavmenuLink 0
        [{ id := "home", offsetTop := 0, offsetHeight := 300 }]
        [{ href := "#home", active := false },
         { href := "#about", active := false }]).countP
      (fun l => l.active) ≤ 1 :=
  c6_at_most_one_active
    [{ href := "#home", active := false }, { href := "#about", active := false }]
    (by decide) 0 [{ id := "home", offsetTop := 0, offsetHeight := 300 }]

/-! ## Debounce machine (src/index.js lines 119-126, 351-366) -/

/-- One call of the wrapper returned by `debounce`: `clearTimeout(timeout)`
discards whatever fire was pending, then `setTimeout(..., delay)` schedules
the body at `t + delay`. -/
def debounceStep (delay : Nat) (_pending : Option Nat) (t : Nat) : Option Nat :=
  some (t + delay)

/-- Run the debounced wrapper over time-ordered call instants `ts` from a
given pending fire time, collecting the instants at which the body actually
runs: a pending fire due no later than the next call executes, otherwise the
new call cancels it; a fire still pending at the end executes. -/
def debounceRun (delay : Nat) (pending : Option Nat) : List Nat → List Nat
  | [] => pending.toList
  | t :: rest =>
      (match pending with
       | some f => if f ≤ t then [f] else []
       | none => []) ++ debounceRun delay (debounceStep delay pending t) rest

theorem mem_debounceRun_some (delay : Nat) (ts : List Nat) :
    ∀ p f : Nat, List.Pairwise (· < ·) ts →
      (f ∈ debounceRun delay (some p) ts ↔
        (f = p ∧ ∀ t' ∈ ts, p ≤ t') ∨
        ∃ t ∈ ts, f = t + delay ∧ ∀ t' ∈ ts, t' ≤ t ∨ t + delay ≤ t') := by
  induction ts with
  | nil =>
    intro p f _
    simp [debounceRun]
  | cons t rest ih =>
    intro p f hpw
    have hlt : ∀ t' ∈ rest, t < t' := (List.pairwise_cons.mp hpw).1
    have hrest : List.Pairwise (· < ·) rest := (List.pairwise_cons.mp hpw).2
    simp only [debounceRun, debounceStep, List.mem_append]
    constructor
    · rintro (hhead | hrec)
      · by_cases hpt : p ≤ t
        · rw [if_pos hpt] at hhead
          simp only [List.mem_singleton] at hhead
          subst hhead
          left
          refine ⟨rfl, ?_⟩
          intro u hu
          rcases List.mem_cons.mp hu with rfl | hmem
          · exact hpt
          · exact le_of_lt (lt_of_le_of_lt hpt (hlt _ hmem))
        · rw [if_neg hpt] at hhead
          simp at hhead
      · rcases (ih (t + delay) f hrest).mp hrec with ⟨rfl, hall⟩ | ⟨u, hu, rfl, hall⟩
        · right
          refine ⟨t, List.mem_cons_self t rest, rfl, ?_⟩
          intro u hu
          rcases List.mem_cons.mp hu with rfl | hmem
          · exact Or.inl (le_refl u)
          · exact Or.inr (hall _ hmem)
        · right
          refine ⟨u, List.mem_cons_of_mem _ hu, rfl, ?_⟩
          intro v hv
          rcases List.mem_cons.mp hv with rfl | hmem
          · exact Or.inl (le_of_lt (hlt _ hu))
          · exact hall _ hmem
    · rintro (⟨rfl, hall⟩ | ⟨u, hu, rfl, hall⟩)
      · left
        have hpt : f ≤ t := hall t (List.mem_cons_self t rest)
        rw [if_pos hpt]
        simp
      · rcases List.mem_cons.mp hu with rfl | hmem
        · right
          apply (ih (u + delay) _ hrest).mpr
          left
          refine ⟨rfl, ?_⟩
          intro v hv
          rcases hall v (List.mem_cons_of_mem _ hv) with h1 | h2
          · exact absurd h1 (not_le.mpr (hlt _ hv))
          · exact h2
        · right
          apply (ih (t + delay) _ hrest).mpr
          right
          exact ⟨u, hmem, rfl, fun v hv => hall v (List.mem_cons_of_mem _ hv)⟩

/-- Starting idle, the body fires exactly at `t + delay` for those call
instants `t` followed by no call strictly within the next `delay`. -/
theorem debounceRun_none_mem (delay : Nat) (ts : List Nat) (f : Nat)
    (h : List.Pairwise (· < ·) ts) :
    f ∈ debounceRun delay none ts ↔
      ∃ t ∈ ts, f = t + delay ∧ ∀ t' ∈ ts, t' ≤ t ∨ t + delay ≤ t' := by
  cases ts with
  | nil => simp [debounceRun]
  | cons t rest =>
    have hlt : ∀ t' ∈ rest, t < t' := (List.pairwise_cons.mp h).1
    have hrest : List.Pairwise (· < ·) rest := (List.pairwise_cons.mp h).2
    have hrw : debounceRun delay none (t :: rest) =
        debounceRun delay (some (t + delay)) rest := by
      simp [debounceRun, debounceStep]
    rw [hrw, mem_debounceRun_some delay rest (t + delay) f hrest]
    constructor
    · rintro (⟨rfl, hall⟩ | ⟨u, hu, rfl, hall⟩)
      · refine ⟨t, List.mem_cons_self t rest, rfl, ?_⟩
        intro v hv
        rcases List.mem_cons.mp hv with rfl | hmem
        · exact Or.inl (le_refl v)
        · exact Or.inr (hall _ hmem)
      · refine ⟨u, List.mem_cons_of_mem _ hu, rfl, ?_⟩
        intro v hv
        rcases List.mem_cons.mp hv with rfl | hmem
        · exact Or.inl (le_of_lt (hlt _ hu))
        · exact hall _ hmem
    · rintro ⟨u, hu, rfl, hall⟩
      rcases List.mem_cons.mp hu with rfl | hmem
      · left
        refine ⟨rfl, ?_⟩
        intro v hv
        rcases hall v (List.mem_cons_of_mem _ hv) with h1 | h2
        · exact absurd h1 (not_le.mpr (hlt _ hv))
        · exact h2
      · right
        exact ⟨u, hmem, rfl, fun v hv => hall v (List.mem_cons_of_mem _ hv)⟩

/-- The actions of the `window` load listener, in source order; the debounced
scroll handler is invoked exactly once there. -/
inductive LoadAction where
  | consoleLog (msg : String)
  | removeUnusedCSS
  | attachScrollListener
  | invokeHandleScroll
  | removePreloader
deriving Repr, DecidableEq

/-- The window-load listener (src/index.js lines 351-366). -/
def windowLoadActions (preloaderPresent : Bool) : List LoadAction :=
  [LoadAction.consoleLog "Window Loaded: Finalizing optimizations...",
   LoadAction.removeUnusedCSS, LoadAction.attachScrollListener,
   LoadAction.invokeHandleScroll]
  ++ (if preloaderPresent then [LoadAction.removePreloader] else [])

/-- C4: every call of the debounced wrapper cancels the pending fire and
schedules a new one at call time + 100 ms; consequently, over any strictly
time-ordered call sequence, the body runs exactly at `t + 100` for the calls
`t` with no further call strictly inside the following 100 ms quiet interval
(so at most once per quiet interval); and the window-load listener invokes
the handler exactly once. -/
theorem c4_debounce_coalescing (ts : List Nat)
    (h : List.Pairwise (· < ·) ts) :
    (∀ (pending : Option Nat) (t : Nat),
        debounceStep 100 pending t = some (t + 100)) ∧
    (∀ f : Nat, f ∈ debounceRun 100 none ts ↔
        ∃ t ∈ ts, f = t + 100 ∧ ∀ t' ∈ ts, t' ≤ t ∨ t + 100 ≤ t') ∧
    (∀ p : Bool, (windowLoadActions p).count LoadAction.invokeHandleScroll = 1) := by
  refine ⟨fun _ _ => rfl, fun f => debounceRun_none_mem 100 ts f h, ?_⟩
  intro p
  cases p <;> decide

/-- Witness for C4: calls at 0, 50 and 200 make the body fire at 150 (the
call at 0 was cancelled by the one at 50). -/
theorem c4_debounce_coalescing_witness :
    (150 : Nat) ∈ debounceRun 100 none [0, 50, 200] :=
  ((c4_debounce_coalescing [0, 50, 200] (by decide)).2.1 150).mpr
    ⟨50, by decide, rfl, by decide⟩

/-! ## Isotope grid: filter clicks and initialization
    (src/index.js lines 176-198 and 266-296) -/

/-- An `li` of a grid's filter bar: its `data-filter` value and whether it
carries the `filter-active` class. -/
structure FilterLi where
  filter : String
  filterActive : Bool
deriving Repr, DecidableEq

/-- A grid item, reduced to the filter attribute the selected filter is
matched against. -/
structure IsoItem where
  filterAttr : String
deriving Repr, DecidableEq

/-- Modelled from the spec: the Isotope library itself is not part of the
repository.  Per the spec, `arrange` with a filter value makes visible
exactly the items whose filter attribute matches that value, and all items
when the value is the wildcard `*`. -/
def arrange (items : List IsoItem) (filterValue : String) : List IsoItem :=
  if filterValue = "*" then items
  else items.filter (fun it => it.filterAttr = filterValue)

/-- `li.classList.remove('filter-active')`. -/
def clearFilterActive (li : FilterLi) : FilterLi :=
  { li with filterActive := false }

/-- `event.target.classList.add('filter-active')`. -/
def setFilterActive (li : FilterLi) : FilterLi :=
  { li with filterActive := true }

/-- The filter-bar click listener (lines 282-293): when the k-th `li` of the
bar is clicked, every `li` loses `filter-active`, the clicked one gains it,
and the grid is re-arranged with the clicked `li`'s `data-filter` value. -/
def isotopeFilterClick (items : List IsoItem) (lis : List FilterLi) (k : Nat) :
    List FilterLi × List IsoItem :=
  match lis[k]? with
  | none => (lis, items)
  | some target =>
      ((lis.map clearFilterActive).set k (setFilterActive target),
        arrange items target.filter)

/-- C5: clicking the k-th filter control leaves exactly that control with the
active class (every sibling is cleared), and the grid's visible item set
becomes exactly the items whose filter attribute matches the control's filter
value, all of them when the value is the wildcard. -/
theorem c5_filter_click_exclusive (items : List IsoItem) (lis : List FilterLi)
    (k : Nat) (hk : k < lis.length) :
    ((isotopeFilterClick items lis k).1.length = lis.length) ∧
    (∀ j, (hj : j < (isotopeFilterClick items lis k).1.length) →
        ((isotopeFilterClick items lis k).1[j].filterActive = decide (j = k))) ∧
    (∀ it, it ∈ (isotopeFilterClick items lis k).2 ↔
        it ∈ items ∧
          ((lis.get ⟨k, hk⟩).filter = "*" ∨
            it.filterAttr = (lis.get ⟨k, hk⟩).filter)) := by
  have hsome : lis[k]? = some (lis.get ⟨k, hk⟩) := by
    simp [List.getElem?_eq_getElem hk]
  refine ⟨?_, ?_, ?_⟩
  · simp [isotopeFilterClick, hsome]
  · intro j hj
    simp only [isotopeFilterClick, hsome] at hj ⊢
    by_cases hjk : j = k
    · subst hjk
      simp [setFilterActive]
    · rw [List.getElem_set_ne (fun hkj => hjk hkj.symm)]
      simp [clearFilterActive, hjk]
  · intro it
    simp only [isotopeFilterClick, hsome, List.get_eq_getElem]
    unfold arrange
    by_cases hw : lis[k].filter = "*"
    · simp [hw]
    · simp only [if_neg hw, List.mem_filter, decide_eq_true_eq]
      constructor
      · rintro ⟨h1, h2⟩
        exact ⟨h1, Or.inr h2⟩
      · rintro ⟨h1, h2 | h2⟩
        · exact absurd h2 hw
        · exact ⟨h1, h2⟩

/-- Witness for C5 at a concrete grid with two filter controls. -/
theorem c5_filter_click_exclusive_witness :
    (isotopeFilterClick [⟨"app"⟩, ⟨"web"⟩]
        [{ filter := "*", filterActive := true },
         { filter := "app", filterActive := false }] 1).1.length = 2 :=
  (c5_filter_click_exclusive [⟨"app"⟩, ⟨"web"⟩]
    [{ filter := "*", filterActive := true },
     { filter := "app", filterActive := false }] 1 (by decide)).1

/-- A `.isotope-layout` container's own data markers. -/
structure IsoContainer where
  dataLayout : Option String
  dataDefaultFilter : Option String
  dataSort : Option String
deriving Repr, DecidableEq

/-- The option record passed to the Isotope constructor. -/
structure IsoConfig where
  itemSelector : String
  layoutMode : String
  filter : String
  sortBy : String
deriving Repr, DecidableEq

/-- JavaScript `getAttribute(x) || d`: both `null` and the empty string are
falsy and fall back to the default. -/
def attrOr (v : Option String) (d : String) : String :=
  match v with
  | some s => if s = "" then d else s
  | none => d

/-- The per-container initialization of the Isotope bootstrap
(src/index.js lines 268-277). -/
def initIsotopeConfig (el : IsoContainer) : IsoConfig :=
  { itemSelector := ".isotope-item"
    layoutMode := attrOr el.dataLayout "masonry"
    filter := attrOr el.dataDefaultFilter "*"
    sortBy := attrOr el.dataSort "original-order" }

/-- The `document.querySelectorAll('.isotope-layout').forEach` bootstrap:
one Isotope instance per matching container, keyed by the container. -/
def isotopeBootstrap (els : List IsoContainer) :
    List (IsoContainer × IsoConfig) :=
  els.map (fun el => (el, initIsotopeConfig el))

/-- C7: the grid configuration is read from the container's own data markers
with defaults `*` (filter) and `original-order` (sort) when absent; the
bootstrap creates exactly one instance per matching container, and at most
one instance is keyed by any given container element. -/
theorem c7_isotope_defaults_and_singleton (els : List IsoContainer)
    (el : IsoContainer) (hnodup : els.Nodup) :
    ((isotopeBootstrap els).map Prod.fst = els) ∧
    (((isotopeBootstrap els).map Prod.fst).count el ≤ 1) ∧
    (el.dataDefaultFilter = none → (initIsotopeConfig el).filter = "*") ∧
    (el.dataSort = none → (initIsotopeConfig el).sortBy = "original-order") ∧
    (∀ s : String, s ≠ "" →
      (el.dataLayout = some s → (initIsotopeConfig el).layoutMode = s) ∧
      (el.dataDefaultFilter = some s → (initIsotopeConfig el).filter = s) ∧
      (el.dataSort = some s → (initIsotopeConfig el).sortBy = s)) := by
  have hfst : (isotopeBootstrap els).map Prod.fst = els := by
    unfold isotopeBootstrap
    rw [List.map_map]
    have hcomp : (Prod.fst ∘ fun el : IsoContainer => (el, initIsotopeConfig el)) =
        id := rfl
    rw [hcomp, List.map_id]
  refine ⟨hfst, ?_, ?_, ?_, ?_⟩
  · rw [hfst]
    exact List.nodup_iff_count_le_one.mp hnodup el
  · intro h
    simp [initIsotopeConfig, attrOr, h]
  · intro h
    simp [initIsotopeConfig, attrOr, h]
  · intro s hs
    refine ⟨?_, ?_, ?_⟩ <;> intro h <;> simp [initIsotopeConfig, attrOr, h, hs]

/-- Witness for C7: a container with no data markers gets the default
show-all filter. -/
theorem c7_isotope_defaults_and_singleton_witness :
    (initIsotopeConfig
        { dataLayout := none, dataDefaultFilter := none,
          dataSort := none }).filter = "*" :=
  (c7_isotope_defaults_and_singleton []
    { dataLayout := none, dataDefaultFilter := none, dataSort := none }
    (by decide)).2.2.1 rfl

/-! ## Header toggle (src/index.js lines 310-318) and idempotence -/

/-- The mobile header-toggle click listener: `header.classList.toggle(
'header-show')`, then the toggle button flips `bi-list` and `bi-x`. -/
def headerToggleClick (header toggleBtn : ClassList) : ClassList × ClassList :=
  (toggleClass header "header-show",
   toggleClass (toggleClass toggleBtn "bi-list") "bi-x")

theorem addClass_idem (cs : ClassList) (c : String) :
    addClass (addClass cs c) c = addClass cs c := by
  unfold addClass
  by_cases h : c ∈ cs
  · simp [h]
  · simp [h]

theorem removeClass_idem (cs : ClassList) (c : String) :
    removeClass (removeClass cs c) c = removeClass cs c := by
  unfold removeClass
  rw [List.filter_filter]
  simp

theorem mem_toggleClass_twice (cs : ClassList) (c d : String) :
    d ∈ toggleClass (toggleClass cs c) c ↔ d ∈ cs := by
  by_cases hc : c ∈ cs
  · have h1 : toggleClass cs c = removeClass cs c := if_pos hc
    have h2 : c ∉ removeClass cs c := not_mem_removeClass_self cs c
    rw [h1, toggleClass, if_neg h2]
    unfold addClass removeClass
    rw [if_neg (by simp)]
    simp only [List.mem_append, List.mem_filter, List.mem_singleton,
      decide_eq_true_eq]
    by_cases hd : d = c
    · subst hd
      simp [hc]
    · simp [hd]
  · have h1 : toggleClass cs c = addClass cs c := if_neg hc
    have h2 : c ∈ addClass cs c := mem_addClass_self cs c
    rw [h1, toggleClass, if_pos h2]
    unfold addClass removeClass
    rw [if_neg hc]
    simp only [List.filter_append, List.mem_append, List.mem_filter,
      decide_eq_true_eq]
    by_cases hd : d = c
    · subst hd
      simp [hc]
    · simp [hd]

theorem setLinkActive_idem (cur : Option String) (l : NavLink) :
    setLinkActive cur (setLinkActive cur l) = setLinkActive cur l := by
  cases cur <;> rfl

theorem handleScroll_idem (y : Int) (b : Option ClassList) :
    handleScroll y (handleScroll y b) = handleScroll y b := by
  cases b with
  | none => rfl
  | some cs =>
    unfold handleScroll
    by_cases h : y > 100
    · simp only [if_pos h, addClass_idem]
    · simp only [if_neg h, removeClass_idem]

theorem activateNavmenuLink_idem (y : Int) (sections : List SectionElem)
    (links : List NavLink) :
    activateNavmenuLink y sections (activateNavmenuLink y sections links) =
      activateNavmenuLink y sections links := by
  unfold activateNavmenuLink
  rw [List.map_map]
  apply List.map_congr_left
  intro l _
  exact setLinkActive_idem _ l

theorem isotopeFilterClick_pos (items : List IsoItem) (lis : List FilterLi)
    (k : Nat) (target : FilterLi) (h : lis[k]? = some target) :
    isotopeFilterClick items lis k =
      ((lis.map clearFilterActive).set k (setFilterActive target),
        arrange items target.filter) := by
  unfold isotopeFilterClick
  rw [h]

theorem clearFilterActive_comp :
    clearFilterActive ∘ clearFilterActive = clearFilterActive := by
  funext li
  rfl

theorem clearFilterActive_setFilterActive (li : FilterLi) :
    clearFilterActive (setFilterActive li) = clearFilterActive li := rfl

theorem setFilterActive_idem (li : FilterLi) :
    setFilterActive (setFilterActive li) = setFilterActive li := rfl

theorem setFilterActive_filter (li : FilterLi) :
    (setFilterActive li).filter = li.filter := rfl

theorem isotopeFilterClick_idem (items : List IsoItem) (lis : List FilterLi)
    (k : Nat) :
    isotopeFilterClick items (isotopeFilterClick items lis k).1 k =
      isotopeFilterClick items lis k := by
  by_cases hk : k < lis.length
  · have hstep : isotopeFilterClick items lis k =
        ((lis.map clearFilterActive).set k (setFilterActive lis[k]),
          arrange items lis[k].filter) :=
      isotopeFilterClick_pos items lis k lis[k] (List.getElem?_eq_getElem hk)
    have hk1 : k < ((lis.map clearFilterActive).set k
        (setFilterActive lis[k])).length := by
      simp [hk]
    have hget1 : ((lis.map clearFilterActive).set k
          (setFilterActive lis[k]))[k]? = some (setFilterActive lis[k]) := by
      rw [List.getElem?_eq_getElem hk1, List.getElem_set_self]
    calc isotopeFilterClick items (isotopeFilterClick items lis k).1 k
        = isotopeFilterClick items
            ((lis.map clearFilterActive).set k (setFilterActive lis[k])) k := by
          rw [hstep]
      _ = ((((lis.map clearFilterActive).set k
              (setFilterActive lis[k])).map clearFilterActive).set k
            (setFilterActive (setFilterActive lis[k])),
          arrange items (setFilterActive lis[k]).filter) :=
          isotopeFilterClick_pos items _ k _ hget1
      _ = ((lis.map clearFilterActive).set k (setFilterActive lis[k]),
          arrange items lis[k].filter) := by
          rw [List.map_set, List.map_map, clearFilterActive_comp,
            clearFilterActive_setFilterActive, setFilterActive_idem,
            setFilterActive_filter, List.set_set]
      _ = isotopeFilterClick items lis k := hstep.symm
  · have hnone : lis[k]? = none := List.getElem?_eq_none (le_of_not_lt hk)
    have hstep : isotopeFilterClick items lis k = (lis, items) := by
      unfold isotopeFilterClick
      rw [hnone]
    rw [hstep, hstep]

/-- C9 counterexample: running the header-toggle click twice from a header
without `header-show` does not equal running it once, so the header toggle
handler is not idempotent. -/
theorem c9_counterexample :
    headerToggleClick (headerToggleClick [] ["bi-list"]).1
        (headerToggleClick [] ["bi-list"]).2 ≠
      headerToggleClick [] ["bi-list"] := by
  decide

/-- C9 (amended): the scroll-to-top toggle, the navigation highlighter and
the filter activation are idempotent; the header toggle is not idempotent:
it flips its classes, so running it twice restores the original class
membership instead of matching a single run. -/
theorem c9_idempotence_except_header_toggle :
    (∀ (y : Int) (b : Option ClassList),
        handleScroll y (handleScroll y b) = handleScroll y b) ∧
    (∀ (y : Int) (sections : List SectionElem) (links : List NavLink),
        activateNavmenuLink y sections (activateNavmenuLink y sections links) =
          activateNavmenuLink y sections links) ∧
    (∀ (items : List IsoItem) (lis : List FilterLi) (k : Nat),
        isotopeFilterClick items (isotopeFilterClick items lis k).1 k =
          isotopeFilterClick items lis k) ∧
    (∀ (header toggleBtn : ClassList) (d : String),
        d ∈ (headerToggleClick
              (headerToggleClick header toggleBtn).1
              (headerToggleClick header toggleBtn).2).1 ↔ d ∈ header) :=
  ⟨handleScroll_idem, activateNavmenuLink_idem, isotopeFilterClick_idem,
    fun header _ d => mem_toggleClass_twice header "header-show" d⟩

/-! ## Conditional widget bootstrap and the document-ready sequence
    (src/index.js lines 79-101 and 204-345) -/

/-- Presence of each optional third-party global the script probes for. -/
structure Capabilities where
  fontFaceObserver : Bool
  aos : Bool
  typed : Bool
  pureCounter : Bool
  glightbox : Bool
  swiper : Bool
  isotope : Bool
deriving Repr, DecidableEq

/-- The DOM nodes the document-ready sequence looks up.  `typedElement` is
`none` when no `.typed` element exists, and `some a` for an element whose
`data-typed-items` attribute value is `a` (itself `none` when absent). -/
structure DomEnv where
  typedElement : Option (Option String)
  locationHash : Bool
  hashTargetFound : Bool
  headerToggle : Bool
  header : Bool
deriving Repr, DecidableEq

/-- Observable steps of the document-ready sequence, in source order. -/
inductive Effect where
  | consoleLog (msg : String)
  | consoleWarn (msg : String)
  | consoleError (msg : String)
  | lazyLoad
  | scheduleFontLoad
  | delegation
  | initAOS
  | initTyped (strings : List String)
  | initPureCounter
  | initGLightbox
  | initSwiper
  | initIsotope
  | smoothScroll
  | wireHeaderToggle
  | wireNavHighlighter
deriving Repr, DecidableEq

/-- Synchronous part of `optimizeFontLoading`: with the library present the
font promise chain is scheduled; otherwise a console warning is emitted
(line 99). -/
def optimizeFontLoadingSync (present : Bool) : List Effect :=
  if present then [Effect.scheduleFontLoad]
  else
    [Effect.consoleWarn "FontFaceObserver not found. Font optimization skipped."]

/-- Outcome of the font-load promise chain. -/
inductive FontLoadResult where
  | resolved
  | rejected (e : String)
deriving Repr, DecidableEq

/-- Logs emitted by the font promise continuations (lines 90-97): success is
logged as a plain log, rejection as a console error. -/
def fontLoadPromiseLogs : FontLoadResult → List Effect
  | FontLoadResult.resolved => [Effect.consoleLog "All fonts loaded"]
  | FontLoadResult.rejected e =>
      [Effect.consoleError ("Error loading fonts: " ++ e)]

/-- The Typed bootstrap (lines 230-243): with the library present and a
`.typed` element whose `data-typed-items` attribute is absent,
`typed_strings.split(',')` is called on `null` and throws. -/
def typedInit (present : Bool) (typedElement : Option (Option String)) :
    Except String (List Effect) :=
  if present then
    match typedElement with
    | none => Except.ok []
    | some none => Except.error "TypeError: cannot read properties of null"
    | some (some s) => Except.ok [Effect.initTyped (s.splitOn ",")]
  else Except.ok []

/-- The document-ready effects up to and including the AOS probe
(lines 205-227), which precede the Typed bootstrap. -/
def domReadyPre (caps : Capabilities) : List Effect :=
  [Effect.consoleLog "DOM Content Loaded: Initializing optimizations...",
   Effect.lazyLoad]
  ++ optimizeFontLoadingSync caps.fontFaceObserver
  ++ [Effect.delegation]
  ++ (if caps.aos then [Effect.initAOS] else [])

/-- The DOMContentLoaded listener (lines 204-345): the effect sequence it
performs, and the uncaught exception (if any) that aborted the rest of it. -/
def domContentLoaded (caps : Capabilities) (dom : DomEnv) :
    List Effect × Option String :=
  match typedInit caps.typed dom.typedElement with
  | Except.error e => (domReadyPre caps, some e)
  | Except.ok typedEffects =>
      (domReadyPre caps ++ typedEffects
        ++ (if caps.pureCounter then [Effect.initPureCounter] else [])
        ++ (if caps.glightbox then [Effect.initGLightbox] else [])
        ++ (if caps.swiper then [Effect.initSwiper] else [])
        ++ (if caps.isotope then [Effect.initIsotope] else [])
        ++ (if dom.locationHash && dom.hashTargetFound then
              [Effect.smoothScroll] else [])
        ++ (if dom.headerToggle && dom.header then
              [Effect.wireHeaderToggle] else [])
        ++ [Effect.wireNavHighlighter], none)

/-- Console warnings and errors. -/
def isWarnOrError : Effect → Bool
  | Effect.consoleWarn _ => true
  | Effect.consoleError _ => true
  | _ => false

/-- Effects wired after the Typed bootstrap in the document-ready listener. -/
def isLateEffect : Effect → Bool
  | Effect.initPureCounter => true
  | Effect.initGLightbox => true
  | Effect.initSwiper => true
  | Effect.initIsotope => true
  | Effect.smoothScroll => true
  | Effect.wireHeaderToggle => true
  | Effect.wireNavHighlighter => true
  | _ => false

theorem domReadyPre_no_late (caps : Capabilities) :
    ∀ e ∈ domReadyPre caps, isLateEffect e = false := by
  unfold domReadyPre optimizeFontLoadingSync
  cases hf : caps.fontFaceObserver <;> cases ha : caps.aos <;> decide

theorem domReadyPre_filter (caps : Capabilities) :
    (domReadyPre caps).filter isWarnOrError =
      if caps.fontFaceObserver then []
      else
        [Effect.consoleWarn
          "FontFaceObserver not found. Font optimization skipped."] := by
  unfold domReadyPre optimizeFontLoadingSync
  cases hf : caps.fontFaceObserver <;> cases ha : caps.aos <;> decide

theorem typedInit_ok_mem (present : Bool) (te : Option (Option String))
    (tfx : List Effect) (h : typedInit present te = Except.ok tfx) :
    ∀ e ∈ tfx, ∃ ss, e = Effect.initTyped ss := by
  unfold typedInit at h
  by_cases hp : present = true
  · rw [if_pos hp] at h
    rcases te with _ | te2
    · simp only [Except.ok.injEq] at h
      subst h
      simp
    · rcases te2 with _ | s
      · simp at h
      · simp only [Except.ok.injEq] at h
        subst h
        intro e he
        simp only [List.mem_singleton] at he
        exact ⟨s.splitOn ",", he⟩
  · rw [if_neg hp] at h
    simp only [Except.ok.injEq] at h
    subst h
    simp

/-- Membership in a conditional singleton list. -/
theorem mem_if_singleton {α : Type} (a b : α) (c : Prop) [Decidable c] :
    (a ∈ if c then [b] else ([] : List α)) ↔ c ∧ a = b := by
  split_ifs with hc <;> simp [hc]

/-- C8 counterexample: with the font library absent, the document-ready run
emits a console warning, so "absence of the capability's global is silently
skipped with no logging" is false for the FontFaceObserver probe. -/
theorem c8_counterexample :
    Effect.consoleWarn "FontFaceObserver not found. Font optimization skipped." ∈
      (domContentLoaded
        { fontFaceObserver := false, aos := false, typed := false,
          pureCounter := false, glightbox := false, swiper := false,
          isotope := false }
        { typedElement := none, locationHash := false, hashTargetFound := false,
          headerToggle := false, header := false }).1 := by
  decide

/-- C8 (amended): absence of AOS, Typed, PureCounter, GLightbox, Swiper or
Isotope is silently skipped, but absence of FontFaceObserver is logged as a
console warning — the warnings/errors of a document-ready run are exactly
that warning when the font library is absent, and none otherwise; the font
promise logs success as a plain log and rejection as the only logged error;
a missing header toggle or header leaves the header behavior unwired, a
missing scroll-to-top control leaves the scroll handler without effect, and
no grid containers mean no grid instances. -/
theorem c8_failure_taxonomy (caps : Capabilities) (dom : DomEnv) :
    ((domContentLoaded caps dom).1.filter isWarnOrError =
      if caps.fontFaceObserver then []
      else
        [Effect.consoleWarn
          "FontFaceObserver not found. Font optimization skipped."]) ∧
    (fontLoadPromiseLogs FontLoadResult.resolved =
      [Effect.consoleLog "All fonts loaded"]) ∧
    (∀ e : String, fontLoadPromiseLogs (FontLoadResult.rejected e) =
      [Effect.consoleError ("Error loading fonts: " ++ e)]) ∧
    ((dom.headerToggle = false ∨ dom.header = false) →
      Effect.wireHeaderToggle ∉ (domContentLoaded caps dom).1) ∧
    (∀ y : Int, handleScroll y none = none) ∧
    (isotopeBootstrap [] = []) := by
  refine ⟨?_, rfl, fun e => rfl, ?_, fun y => rfl, rfl⟩
  · unfold domContentLoaded
    cases htyped : typedInit caps.typed dom.typedElement with
    | error e =>
      simp only
      exact domReadyPre_filter caps
    | ok tfx =>
      simp only
      have htfx : tfx.filter isWarnOrError = [] := by
        rw [List.filter_eq_nil_iff]
        intro a ha
        obtain ⟨ss, rfl⟩ := typedInit_ok_mem caps.typed dom.typedElement tfx htyped a ha
        simp [isWarnOrError]
      simp only [List.filter_append, domReadyPre_filter caps, htfx,
        apply_ite (List.filter isWarnOrError)]
      simp [isWarnOrError]
  · intro hmiss
    unfold domContentLoaded
    cases htyped : typedInit caps.typed dom.typedElement with
    | error e =>
      simp only
      intro hmem
      have hlate := domReadyPre_no_late caps _ hmem
      simp [isLateEffect] at hlate
    | ok tfx =>
      simp only
      intro hmem
      simp only [List.mem_append, mem_if_singleton, List.mem_singleton] at hmem
      rcases hmem with ((((((((hpre | htf) | ⟨_, hne⟩) | ⟨_, hne⟩) | ⟨_, hne⟩) |
          ⟨_, hne⟩) | ⟨_, hne⟩) | ⟨hcond, _⟩) | hne)
      · have hlate := domReadyPre_no_late caps _ hpre
        simp [isLateEffect] at hlate
      · obtain ⟨ss, habs⟩ :=
          typedInit_ok_mem caps.typed dom.typedElement tfx htyped _ htf
        cases habs
      · cases hne
      · cases hne
      · cases hne
      · cases hne
      · cases hne
      · rcases hmiss with hh | hh <;> rw [hh] at hcond <;> simp at hcond
      · cases hne

/-- Witness for C8 with a concrete environment missing the header toggle. -/
theorem c8_failure_taxonomy_witness :
    Effect.wireHeaderToggle ∉
      (domContentLoaded
        { fontFaceObserver := true, aos := true, typed := false,
          pureCounter := true, glightbox := true, swiper := true,
          isotope := true }
        { typedElement := none, locationHash := true, hashTargetFound := true,
          headerToggle := false, header := true }).1 :=
  (c8_failure_taxonomy
    { fontFaceObserver := true, aos := true, typed := false,
      pureCounter := true, glightbox := true, swiper := true,
      isotope := true }
    { typedElement := none, locationHash := true, hashTargetFound := true,
      headerToggle := false, header := true }).2.2.2.1 (Or.inl rfl)

/-- C10: when the typed-text global is present and a `.typed` element exists
without the `data-typed-items` attribute, the document-ready listener throws
(split on a null attribute), so the widget bootstraps, smooth scroll, header
toggle and navigation highlighter that follow are never wired. -/
theorem c10_typed_crash (caps : Capabilities) (dom : DomEnv)
    (hT : caps.typed = true) (hE : dom.typedElement = some none) :
    (domContentLoaded caps dom).2.isSome = true ∧
    Effect.initPureCounter ∉ (domContentLoaded caps dom).1 ∧
    Effect.initGLightbox ∉ (domContentLoaded caps dom).1 ∧
    Effect.initSwiper ∉ (domContentLoaded caps dom).1 ∧
    Effect.initIsotope ∉ (domContentLoaded caps dom).1 ∧
    Effect.smoothScroll ∉ (domContentLoaded caps dom).1 ∧
    Effect.wireHeaderToggle ∉ (domContentLoaded caps dom).1 ∧
    Effect.wireNavHighlighter ∉ (domContentLoaded caps dom).1 := by
  have herr : typedInit caps.typed dom.typedElement =
      Except.error "TypeError: cannot read properties of null" := by
    rw [hT, hE]
    rfl
  have hdc : domContentLoaded caps dom =
      (domReadyPre caps,
        some "TypeError: cannot read properties of null") := by
    unfold domContentLoaded
    rw [herr]
  rw [hdc]
  refine ⟨rfl, ?_, ?_, ?_, ?_, ?_, ?_, ?_⟩ <;>
    · intro hmem
      have hlate := domReadyPre_no_late caps _ hmem
      simp [isLateEffect] at hlate

/-- Witness for C10 at a concrete capability set and DOM. -/
theorem c10_typed_crash_witness :
    (domContentLoaded
        { fontFaceObserver := true, aos := true, typed := true,
          pureCounter := true, glightbox := true, swiper := true,
          isotope := true }
        { typedElement := some none, locationHash := true,
          hashTargetFound := true, headerToggle := true,
          header := true }).2.isSome = true :=
  (c10_typed_crash
    { fontFaceObserver := true, aos := true, typed := true,
      pureCounter := true, glightbox := true, swiper := true,
      isotope := true }
    { typedElement := some none, locationHash := true,
      hashTargetFound := true, headerToggle := true, header := true }
    rfl rfl).1
